import Mathlib

/-!
Shallow embedding of the karakeep browser-extension core:
the configuration store (settings module) and the bulk-save
orchestrator (`handleBulkSave` in the bulk-save page).

Raw values held by the shared key-value store (`chrome.storage.sync`)
are JSON-serialisable; an absent key is modelled by `Option`.
JS number arithmetic is modelled exactly: integers for the schema's
`badgeCacheExpireMs`, rationals for the progress percentage.
-/

namespace Karakeep

/-- A JSON-serialisable JS value, as stored by `chrome.storage`.
`undefined` never occurs inside a stored value (serialisation drops
`undefined`-valued keys); absence of a whole value is `Option` at use sites. -/
inductive JsonVal where
  | null
  | bool (b : Bool)
  | num (n : Int)
  | str (s : String)
  | arr (xs : List JsonVal)
  | obj (fields : List (String × JsonVal))

/-- Field access on a JS object: `none` means the key is absent (`undefined`). -/
def fieldsLookup (fs : List (String × JsonVal)) (k : String) : Option JsonVal :=
  match fs with
  | [] => none
  | (k₀, v) :: rest => if k₀ = k then some v else fieldsLookup rest k

/-- `theme: z.enum(["light","dark","system"])`. -/
inductive Theme where
  | light
  | dark
  | system
deriving Repr, DecidableEq

def themeToStr : Theme → String
  | .light => "light"
  | .dark => "dark"
  | .system => "system"

def parseTheme : JsonVal → Option Theme
  | .str "light" => some Theme.light
  | .str "dark" => some Theme.dark
  | .str "system" => some Theme.system
  | _ => none

/-- `export const DEFAULT_BADGE_CACHE_EXPIRE_MS = 60 * 60 * 1000`. -/
def DEFAULT_BADGE_CACHE_EXPIRE_MS : Int := 60 * 60 * 1000

/-- `export const DEFAULT_SHOW_COUNT_BADGE = false`. -/
def DEFAULT_SHOW_COUNT_BADGE : Bool := false

/-- `Settings = z.infer<typeof zSettingsSchema>`.
`apiKeyId` and `closeTabsOnBulkSave` are `.optional()` without a default,
so they may be absent (`undefined`) in a parsed record. -/
structure Settings where
  apiKey : String
  apiKeyId : Option String
  address : String
  autoSave : Bool
  closeTabsOnBulkSave : Option Bool
  theme : Theme
  showCountBadge : Bool
  useBadgeCache : Bool
  badgeCacheExpireMs : Int
  customHeaders : List (String × String)
deriving Repr, DecidableEq

/-- The `DEFAULT_SETTINGS` literal of the settings module. -/
def DEFAULT_SETTINGS : Settings :=
  { apiKey := ""
    apiKeyId := none
    address := "https://cloud.karakeep.app"
    autoSave := false
    closeTabsOnBulkSave := some false
    theme := Theme.system
    showCountBadge := DEFAULT_SHOW_COUNT_BADGE
    useBadgeCache := true
    badgeCacheExpireMs := DEFAULT_BADGE_CACHE_EXPIRE_MS
    customHeaders := [] }

/-- `z.record(z.string(), z.string())`: every value must be a string. -/
def parseStringRecord : List (String × JsonVal) → Option (List (String × String))
  | [] => some []
  | (k, .str v) :: rest => (parseStringRecord rest).map (fun r => (k, v) :: r)
  | _ => none

/-- `apiKey: z.string()` — required, no default. -/
def pApiKey (fs : List (String × JsonVal)) : Option String :=
  match fieldsLookup fs "apiKey" with
  | some (.str s) => some s
  | _ => none

/-- `apiKeyId: z.string().optional()`. -/
def pApiKeyId (fs : List (String × JsonVal)) : Option (Option String) :=
  match fieldsLookup fs "apiKeyId" with
  | none => some none
  | some (.str s) => some (some s)
  | _ => none

/-- `address: z.string().optional().default("https://cloud.karakeep.app")`. -/
def pAddress (fs : List (String × JsonVal)) : Option String :=
  match fieldsLookup fs "address" with
  | none => some "https://cloud.karakeep.app"
  | some (.str s) => some s
  | _ => none

/-- `autoSave: z.boolean().optional().default(false)`. -/
def pAutoSave (fs : List (String × JsonVal)) : Option Bool :=
  match fieldsLookup fs "autoSave" with
  | none => some false
  | some (.bool b) => some b
  | _ => none

/-- `closeTabsOnBulkSave: z.boolean().optional()` — optional WITHOUT a
default: an absent key parses to `undefined`. -/
def pCloseTabsOnBulkSave (fs : List (String × JsonVal)) : Option (Option Bool) :=
  match fieldsLookup fs "closeTabsOnBulkSave" with
  | none => some none
  | some (.bool b) => some (some b)
  | _ => none

/-- `theme: z.enum([...]).optional().default("system")`. -/
def pThemeField (fs : List (String × JsonVal)) : Option Theme :=
  match fieldsLookup fs "theme" with
  | none => some Theme.system
  | some j => parseTheme j

/-- `showCountBadge: z.boolean().default(DEFAULT_SHOW_COUNT_BADGE)`. -/
def pShowCountBadge (fs : List (String × JsonVal)) : Option Bool :=
  match fieldsLookup fs "showCountBadge" with
  | none => some DEFAULT_SHOW_COUNT_BADGE
  | some (.bool b) => some b
  | _ => none

/-- `useBadgeCache: z.boolean().default(true)`. -/
def pUseBadgeCache (fs : List (String × JsonVal)) : Option Bool :=
  match fieldsLookup fs "useBadgeCache" with
  | none => some true
  | some (.bool b) => some b
  | _ => none

/-- `badgeCacheExpireMs: z.number().min(0).default(DEFAULT_BADGE_CACHE_EXPIRE_MS)`. -/
def pBadgeCacheExpireMs (fs : List (String × JsonVal)) : Option Int :=
  match fieldsLookup fs "badgeCacheExpireMs" with
  | none => some DEFAULT_BADGE_CACHE_EXPIRE_MS
  | some (.num n) => if 0 ≤ n then some n else none
  | _ => none

/-- `customHeaders: z.record(z.string(), z.string()).optional().default({})`. -/
def pCustomHeaders (fs : List (String × JsonVal)) : Option (List (String × String)) :=
  match fieldsLookup fs "customHeaders" with
  | none => some []
  | some (.obj hs) => parseStringRecord hs
  | _ => none

/-- `zSettingsSchema.safeParse`: `some` is a success, `none` a failure.
The input must be an object; every field must parse; unknown keys are
stripped. -/
def zSettingsSchema_safeParse (v : JsonVal) : Option Settings :=
  match v with
  | .obj fs =>
    match pApiKey fs, pApiKeyId fs, pAddress fs, pAutoSave fs,
          pCloseTabsOnBulkSave fs, pThemeField fs, pShowCountBadge fs,
          pUseBadgeCache fs, pBadgeCacheExpireMs fs, pCustomHeaders fs with
    | some apiKey, some apiKeyId, some address, some autoSave,
      some closeTabsOnBulkSave, some theme, some showCountBadge,
      some useBadgeCache, some badgeCacheExpireMs, some customHeaders =>
      some { apiKey, apiKeyId, address, autoSave, closeTabsOnBulkSave, theme,
             showCountBadge, useBadgeCache, badgeCacheExpireMs, customHeaders }
    | _, _, _, _, _, _, _, _, _, _ => none
  | _ => none

/-- `safeParse` applied to a possibly absent value (`undefined` fails). -/
def zSafeParseOpt (v : Option JsonVal) : Option Settings :=
  match v with
  | none => none
  | some v => zSettingsSchema_safeParse v

/-- The fields a `Settings` record has when written to the store:
keys with `undefined` values (`apiKeyId`, `closeTabsOnBulkSave` when absent)
are dropped by the storage layer's serialisation. -/
def settingsFields (s : Settings) : List (String × JsonVal) :=
  [("apiKey", .str s.apiKey)]
    ++ (match s.apiKeyId with
        | some k => [("apiKeyId", JsonVal.str k)]
        | none => [])
    ++ [("address", .str s.address), ("autoSave", .bool s.autoSave)]
    ++ (match s.closeTabsOnBulkSave with
        | some b => [("closeTabsOnBulkSave", JsonVal.bool b)]
        | none => [])
    ++ [("theme", .str (themeToStr s.theme)),
        ("showCountBadge", .bool s.showCountBadge),
        ("useBadgeCache", .bool s.useBadgeCache),
        ("badgeCacheExpireMs", .num s.badgeCacheExpireMs),
        ("customHeaders", .obj (s.customHeaders.map (fun p => (p.1, JsonVal.str p.2))))]

/-- How a `Settings` record is serialised when written to the store. -/
def settingsToJson (s : Settings) : JsonVal :=
  .obj (settingsFields s)

/-- The fields of the `DEFAULT_SETTINGS` object literal (it has no
`apiKeyId` key and `closeTabsOnBulkSave: false`). -/
def defaultSettingsFields : List (String × JsonVal) :=
  settingsFields DEFAULT_SETTINGS

/-- JS object spread `{ ...base, ...raw }`: keys of `base` first, values from
`raw` winning on conflict, then the keys only `raw` has. -/
def mergeFields (base raw : List (String × JsonVal)) : List (String × JsonVal) :=
  base.map (fun p => (p.1, (fieldsLookup raw p.1).getD p.2))
    ++ raw.filter (fun p => (fieldsLookup base p.1).isNone)

/-- Spreading an array into an object literal yields its elements under
stringified index keys (`{...["a"]}` is `{"0": "a"}`). -/
def arrayToFields (xs : List JsonVal) : List (String × JsonVal) :=
  (xs.enum).map (fun p => (toString p.1, p.2))

/-- Outcome of one `getPluginSettings()` call: the returned record, the raw
value at the `settings` key afterwards, and whether a store write happened. -/
structure ReadResult where
  result : Settings
  newStore : Option JsonVal
  didWrite : Bool

/-- `getPluginSettings` over the raw value currently at the `settings` key.
Mirrors the source: parse; on success backfill a missing
`closeTabsOnBulkSave` (persisting the enriched record); on failure merge the
raw object under `DEFAULT_SETTINGS`, re-parse, persist on success; otherwise
return `DEFAULT_SETTINGS` without writing. -/
def getPluginSettings (store : Option JsonVal) : ReadResult :=
  match zSafeParseOpt store with
  | some data =>
    match data.closeTabsOnBulkSave with
    | none =>
      let enriched : Settings := { data with closeTabsOnBulkSave := some false }
      ⟨enriched, some (settingsToJson enriched), true⟩
    | some _ => ⟨data, store, false⟩
  | none =>
    match store with
    | some (.obj fs) =>
      let merged := JsonVal.obj (mergeFields (defaultSettingsFields) fs)
      match zSettingsSchema_safeParse merged with
      | some mergedData => ⟨mergedData, some merged, true⟩
      | none => ⟨DEFAULT_SETTINGS, store, false⟩
    | some (.arr xs) =>
      let merged := JsonVal.obj (mergeFields (defaultSettingsFields) (arrayToFields xs))
      match zSettingsSchema_safeParse merged with
      | some mergedData => ⟨mergedData, some merged, true⟩
      | none => ⟨DEFAULT_SETTINGS, store, false⟩
    | _ => ⟨DEFAULT_SETTINGS, store, false⟩

/-- One entry of a `chrome.storage.onChanged` notification; either value may
be `undefined`. -/
structure StorageChange where
  oldValue : Option JsonVal
  newValue : Option JsonVal

/-- The settings hook's `onChange` listener: `changes` is the notification's
`settings` entry (`none` when absent). An invalid or absent new value leaves
the hook's snapshot `prev` unchanged. -/
def hookOnChange (changes : Option StorageChange) (prev : Settings) : Settings :=
  match changes with
  | none => prev
  | some c =>
    match zSafeParseOpt c.newValue with
    | some parsed => parsed
    | none => prev

/-- The listener installed by `subscribeToSettingsChanges`: `some s` means the
subscriber callback is invoked with `s`; `none` means it is not invoked.
An invalid new value still invokes the callback, with `DEFAULT_SETTINGS`. -/
def subscribeListener (changes : Option StorageChange) : Option Settings :=
  match changes with
  | none => none
  | some c =>
    match zSafeParseOpt c.newValue with
    | some parsed => some parsed
    | none => some DEFAULT_SETTINGS

/-- The in-memory state of `usePluginSettings`. -/
structure HookState where
  settings : Settings
  isInit : Bool
deriving Repr, DecidableEq

/-- Events that update the hook's snapshot: resolution of the initial
`getPluginSettings()` load, or a storage-change notification. -/
inductive HookEvent where
  | initLoad (loaded : Settings)
  | storageChange (changes : Option StorageChange)

def hookStep (st : HookState) (e : HookEvent) : HookState :=
  match e with
  | .initLoad s => { settings := s, isInit := true }
  | .storageChange c => { st with settings := hookOnChange c st.settings }

/-- `setSettings` of the hook: the raw value written to the `settings` key is
the serialisation of the updater applied to the hook's current snapshot. -/
def setSettings (st : HookState) (updater : Settings → Settings) : JsonVal :=
  settingsToJson (updater st.settings)

/-! ### Bulk-save orchestrator (`handleBulkSave` of the bulk-save page) -/

/-- A browser tab as the orchestrator sees it (`url`, optional `title`, and
an optional host-environment `id`). -/
structure Tab where
  url : String
  title : Option String
  id : Option Int
deriving Repr, DecidableEq

/-- Outcome of `createBookmark` for one tab: the mutation's `onSuccess`
callback, its `onError` callback (with the error message), or a synchronous
exception caught by the surrounding `try` (the `catch` branch). -/
inductive TabOutcome where
  | success
  | failure (msg : String)
  | thrown (msg : String)
deriving Repr, DecidableEq

def TabOutcome.isThrown : TabOutcome → Bool
  | .thrown _ => true
  | _ => false

inductive SaveType where
  | all
  | window
deriving Repr, DecidableEq

/-- The `bulkSaveStatus` React state; `progress` is the JS number
`((i + 1) / tabsToSave.length) * 100`, modelled exactly as a rational. -/
structure BulkSaveStatus where
  isActive : Bool
  progress : ℚ
  total : ℕ
  completed : ℕ
  errors : List String
  saveType : Option SaveType
deriving Repr, DecidableEq

/-- `tab.title || tab.url`: an absent or empty title falls back to the url. -/
def tabLabel (t : Tab) : String :=
  match t.title with
  | some s => if s = "" then t.url else s
  | none => t.url

/-- `if (tab.id)`: the id is pushed onto `savedTabIds` only when defined and
truthy (a 0 id is falsy in JS). -/
def truthyId (t : Tab) : Option Int :=
  match t.id with
  | some n => if n = 0 then none else some n
  | none => none

/-- The mutable locals of `handleBulkSave`'s loop plus the emitted snapshots:
`cur` is the value of the `bulkSaveStatus` state after the latest
`setBulkSaveStatus`, `snaps` every snapshot emitted so far in order. -/
structure LoopState where
  completed : ℕ
  errors : List String
  savedTabIds : List Int
  cur : BulkSaveStatus
  snaps : List BulkSaveStatus

/-- One iteration of the save loop for tab `t` (index `i` of `N`) with
outcome `o`. `onSuccess` bumps `completed`, records a truthy id and advances
`progress`; `onError` appends the formatted message and advances `progress`;
the `catch` branch appends the message without touching `progress`. -/
def bulkStep (N : ℕ) (i : ℕ) (t : Tab) (o : TabOutcome) (st : LoopState) : LoopState :=
  match o with
  | .success =>
    let completed := st.completed + 1
    let savedTabIds := st.savedTabIds ++ (truthyId t).toList
    let cur := { st.cur with
      progress := (((i : ℚ) + 1) / (N : ℚ)) * 100
      completed := completed }
    ⟨completed, st.errors, savedTabIds, cur, st.snaps ++ [cur]⟩
  | .failure msg =>
    let errMsg := tabLabel t ++ ": " ++ msg
    let errors := st.errors ++ [errMsg]
    let cur := { st.cur with
      progress := (((i : ℚ) + 1) / (N : ℚ)) * 100
      errors := errors }
    ⟨st.completed, errors, st.savedTabIds, cur, st.snaps ++ [cur]⟩
  | .thrown msg =>
    let errMsg := tabLabel t ++ ": " ++ msg
    let errors := st.errors ++ [errMsg]
    let cur := { st.cur with errors := errors }
    ⟨st.completed, errors, st.savedTabIds, cur, st.snaps ++ [cur]⟩

/-- The `for (let i = 0; i < tabsToSave.length; i++)` loop, with each tab
paired with its outcome. -/
def bulkLoop (N : ℕ) : ℕ → List (Tab × TabOutcome) → LoopState → LoopState
  | _, [], st => st
  | i, (t, o) :: rest, st => bulkLoop N (i + 1) rest (bulkStep N i t o st)

/-- What one `handleBulkSave` run does: every emitted `BulkSaveStatus`
snapshot in order, the final `error` message (`none` when `setError(undefined)`),
and the batched tab-closure request (`none` when `chrome.tabs.remove` is
never called with the batch). -/
structure RunResult where
  snapshots : List BulkSaveStatus
  error : Option String
  closeRequest : Option (List Int)
deriving Repr, DecidableEq

/-- The ids `savedTabIds` will hold at the end of the run: the truthy ids of
the tabs whose create operation succeeded, in order. -/
def succIds (items : List (Tab × TabOutcome)) : List Int :=
  items.filterMap (fun p =>
    match p.2 with
    | .success => truthyId p.1
    | _ => none)

/-- `handleBulkSave` over the chosen tab list, each tab paired with its
create outcome. An empty list sets the error and returns before any
`setBulkSaveStatus`. Otherwise: initial snapshot, the loop, the batched
close request (only when `savedTabIds` is non-empty and `closeTabs` is set),
the final `isActive := false` snapshot, and the summary message. -/
def handleBulkSave (items : List (Tab × TabOutcome)) (closeTabs : Bool)
    (saveType : SaveType) : RunResult :=
  if items.length = 0 then
    ⟨[], some "No valid tabs found to save", none⟩
  else
    let N := items.length
    let init : BulkSaveStatus :=
      { isActive := true, progress := 0, total := N, completed := 0,
        errors := [], saveType := some saveType }
    let stF := bulkLoop N 0 items ⟨0, [], [], init, [init]⟩
    let closeRequest :=
      if closeTabs ∧ stF.savedTabIds ≠ [] then some stF.savedTabIds else none
    let finalSnap := { stF.cur with isActive := false }
    let err :=
      if stF.completed = N then none
      else if 0 < stF.completed then
        some ("Saved " ++ toString stF.completed ++ " of " ++ toString N
          ++ " tabs. Some tabs failed to save.")
      else some "Failed to save any tabs."
    ⟨stF.snaps ++ [finalSnap], err, closeRequest⟩

/-! ### Lemmas about the configuration store -/

lemma fieldsLookup_append (l₁ l₂ : List (String × JsonVal)) (k : String) :
    fieldsLookup (l₁ ++ l₂) k =
      match fieldsLookup l₁ k with
      | some v => some v
      | none => fieldsLookup l₂ k := by
  induction l₁ with
  | nil => simp [fieldsLookup]
  | cons p rest ih =>
    obtain ⟨k₀, v⟩ := p
    by_cases h : k₀ = k <;> simp [fieldsLookup, h, ih]

lemma fieldsLookup_mergeMap (base raw : List (String × JsonVal)) (k : String) :
    fieldsLookup (base.map (fun p => (p.1, (fieldsLookup raw p.1).getD p.2))) k
      = (fieldsLookup base k).map (fun v => (fieldsLookup raw k).getD v) := by
  induction base with
  | nil => simp [fieldsLookup]
  | cons p rest ih =>
    obtain ⟨k₀, v⟩ := p
    by_cases h : k₀ = k
    · subst h; simp [fieldsLookup]
    · simp [fieldsLookup, h, ih]

lemma fieldsLookup_mergeFilter (base raw : List (String × JsonVal)) (k : String) :
    fieldsLookup (raw.filter (fun p => (fieldsLookup base p.1).isNone)) k
      = if (fieldsLookup base k).isNone then fieldsLookup raw k else none := by
  induction raw with
  | nil => simp [fieldsLookup]
  | cons p rest ih =>
    obtain ⟨k₀, v⟩ := p
    by_cases hq : (fieldsLookup base k₀).isNone
    · by_cases h : k₀ = k
      · subst h; simp [fieldsLookup, hq, ih]
      · simp [fieldsLookup, h, hq, ih]
    · by_cases h : k₀ = k
      · subst h
        simp only [List.filter_cons, hq]
        simp [fieldsLookup, ih, hq]
      · simp [fieldsLookup, h, hq, ih]

/-- Looking a key up in a JS spread `{ ...base, ...raw }`: `raw` wins when it
has the key, otherwise `base`'s value is used. -/
lemma fieldsLookup_mergeFields (base raw : List (String × JsonVal)) (k : String) :
    fieldsLookup (mergeFields base raw) k =
      match fieldsLookup base k with
      | some v => some ((fieldsLookup raw k).getD v)
      | none => fieldsLookup raw k := by
  unfold mergeFields
  rw [fieldsLookup_append, fieldsLookup_mergeMap, fieldsLookup_mergeFilter]
  cases hb : fieldsLookup base k with
  | none => simp
  | some v => simp

lemma parseTheme_themeToStr (t : Theme) : parseTheme (.str (themeToStr t)) = some t := by
  cases t <;> rfl

lemma parseStringRecord_encode (hs : List (String × String)) :
    parseStringRecord (hs.map (fun p => (p.1, JsonVal.str p.2))) = some hs := by
  induction hs with
  | nil => rfl
  | cons p rest ih =>
    obtain ⟨k, v⟩ := p
    simp [parseStringRecord, ih]

/-- Round trip: a serialised `Settings` record parses back to itself (its
`badgeCacheExpireMs` is nonnegative, as for every record the schema accepts). -/
lemma safeParse_settingsToJson (s : Settings) (h : 0 ≤ s.badgeCacheExpireMs) :
    zSettingsSchema_safeParse (settingsToJson s) = some s := by
  obtain ⟨apiKey, apiKeyId, address, autoSave, ctobs, theme, scb, ubc, bce, ch⟩ := s
  simp only at h
  cases apiKeyId <;> cases ctobs <;>
    simp [settingsToJson, settingsFields, zSettingsSchema_safeParse, fieldsLookup,
      pApiKey, pApiKeyId, pAddress, pAutoSave, pCloseTabsOnBulkSave, pThemeField,
      pShowCountBadge, pUseBadgeCache, pBadgeCacheExpireMs, pCustomHeaders,
      parseTheme_themeToStr, parseStringRecord_encode, h]

/-- Inversion of a successful parse: the parsed `closeTabsOnBulkSave` mirrors
the raw field (absent key gives `none`, a boolean gives `some`), and the
parsed `badgeCacheExpireMs` honours the schema's `min(0)`. -/
lemma safeParse_obj_inv (fs : List (String × JsonVal)) (s : Settings)
    (h : zSettingsSchema_safeParse (.obj fs) = some s) :
    (match fieldsLookup fs "closeTabsOnBulkSave" with
     | none => s.closeTabsOnBulkSave = none
     | some (.bool b) => s.closeTabsOnBulkSave = some b
     | _ => False) ∧ 0 ≤ s.badgeCacheExpireMs := by
  unfold zSettingsSchema_safeParse at h
  split at h
  case h_2 =>
    rename_i himp
    exact (himp fs rfl).elim
  rename_i fs2 hfs
  injection hfs with hfs
  subst hfs
  split at h
  case h_2 => exact Option.noConfusion h
  rename_i apiKey apiKeyId address autoSave ctobs theme scb ubc bce ch
    h1 h2 h3 h4 h5 h6 h7 h8 h9 h10
  injection h with h
  subst h
  simp only
  constructor
  · unfold pCloseTabsOnBulkSave at h5
    split at h5
    · injection h5 with h5
      exact h5.symm
    · injection h5 with h5
      exact h5.symm
    · exact Option.noConfusion h5
  · unfold pBadgeCacheExpireMs at h9
    split at h9
    · injection h9 with h9
      subst h9
      decide
    · rename_i n hk
      split at h9
      · rename_i hn
        injection h9 with h9
        subst h9
        exact hn
      · exact Option.noConfusion h9
    · exact Option.noConfusion h9

lemma zSafeParseOpt_some (v : JsonVal) :
    zSafeParseOpt (some v) = zSettingsSchema_safeParse v := rfl

lemma safeParse_badge_nonneg (v : JsonVal) (s : Settings)
    (h : zSettingsSchema_safeParse v = some s) : 0 ≤ s.badgeCacheExpireMs := by
  cases v <;>
    first
    | exact (safeParse_obj_inv _ _ h).2
    | exact Option.noConfusion h

lemma default_fields_ctobs :
    fieldsLookup defaultSettingsFields "closeTabsOnBulkSave" = some (.bool false) := by
  rfl

/-- A record obtained by parsing a merge under `DEFAULT_SETTINGS` always has
`closeTabsOnBulkSave` present: the defaults supply the key, so the merged
object has it, and a successful parse then accepts only a boolean there. -/
lemma merged_parse_ctobs_isSome (raw : List (String × JsonVal)) (md : Settings)
    (hm : zSettingsSchema_safeParse (.obj (mergeFields defaultSettingsFields raw)) = some md) :
    md.closeTabsOnBulkSave.isSome := by
  have hinv := (safeParse_obj_inv _ _ hm).1
  have hl : fieldsLookup (mergeFields defaultSettingsFields raw) "closeTabsOnBulkSave"
      = some ((fieldsLookup raw "closeTabsOnBulkSave").getD (.bool false)) := by
    rw [fieldsLookup_mergeFields, default_fields_ctobs]
  rw [hl] at hinv
  cases hv : (fieldsLookup raw "closeTabsOnBulkSave").getD (.bool false) <;>
    rw [hv] at hinv
  case bool b =>
    have hb : md.closeTabsOnBulkSave = some b := hinv
    rw [hb]; rfl
  all_goals exact (hinv : False).elim

/-- Every record `getPluginSettings` returns has `closeTabsOnBulkSave`
defined: parse-success either already has it or it is backfilled; the merge
path supplies it from the defaults; the fallback is `DEFAULT_SETTINGS`. -/
lemma read_ctobs_isSome (store : Option JsonVal) :
    ((getPluginSettings store).result).closeTabsOnBulkSave.isSome := by
  cases hp : zSafeParseOpt store with
  | some data =>
    cases hc : data.closeTabsOnBulkSave with
    | some b => simp [getPluginSettings, hp, hc]
    | none => simp [getPluginSettings, hp, hc]
  | none =>
    cases store with
    | none => simp [getPluginSettings, hp, DEFAULT_SETTINGS]
    | some v =>
      cases v <;> simp [getPluginSettings, hp, DEFAULT_SETTINGS]
      case obj fs =>
        cases hm : zSettingsSchema_safeParse (.obj (mergeFields defaultSettingsFields fs)) with
        | some md => simpa [hm] using merged_parse_ctobs_isSome fs md hm
        | none => simp [hm, DEFAULT_SETTINGS]
      case arr xs =>
        cases hm : zSettingsSchema_safeParse
            (.obj (mergeFields defaultSettingsFields (arrayToFields xs))) with
        | some md => simpa [hm] using merged_parse_ctobs_isSome (arrayToFields xs) md hm
        | none => simp [hm, DEFAULT_SETTINGS]

/-- C3: for every stored raw value, a second `getPluginSettings()` call with
no intervening write returns the identical `Settings` record, performs no
additional write to the persistent store, and leaves the stored value
unchanged. -/
theorem read_read_idempotent (store : Option JsonVal) :
    (getPluginSettings (getPluginSettings store).newStore).result
        = (getPluginSettings store).result
    ∧ (getPluginSettings (getPluginSettings store).newStore).didWrite = false
    ∧ (getPluginSettings (getPluginSettings store).newStore).newStore
        = (getPluginSettings store).newStore := by
  cases hp : zSafeParseOpt store with
  | some data =>
    cases hc : data.closeTabsOnBulkSave with
    | some b => simp [getPluginSettings, hp, hc]
    | none =>
      have hb : 0 ≤ data.badgeCacheExpireMs := by
        cases store with
        | none => exact Option.noConfusion hp
        | some v => exact safeParse_badge_nonneg v data hp
      have hrt : zSettingsSchema_safeParse
          (settingsToJson { data with closeTabsOnBulkSave := some false })
          = some { data with closeTabsOnBulkSave := some false } :=
        safeParse_settingsToJson _ (by simpa using hb)
      simp [getPluginSettings, hp, hc, zSafeParseOpt_some, hrt]
  | none =>
    cases store with
    | none => simp [getPluginSettings, hp]
    | some v =>
      rw [zSafeParseOpt_some] at hp
      cases v <;> simp only [getPluginSettings, zSafeParseOpt_some, hp] <;>
        try exact ⟨trivial, trivial, trivial⟩
      case obj fs =>
        cases hm : zSettingsSchema_safeParse (.obj (mergeFields defaultSettingsFields fs)) with
        | some md =>
          obtain ⟨b, hb⟩ := Option.isSome_iff_exists.mp (merged_parse_ctobs_isSome fs md hm)
          simp [getPluginSettings, hp, hm, zSafeParseOpt_some, hb]
        | none => simp [getPluginSettings, hp, hm, zSafeParseOpt_some]
      case arr xs =>
        cases hm : zSettingsSchema_safeParse
            (.obj (mergeFields defaultSettingsFields (arrayToFields xs))) with
        | some md =>
          obtain ⟨b, hb⟩ := Option.isSome_iff_exists.mp
            (merged_parse_ctobs_isSome (arrayToFields xs) md hm)
          simp [getPluginSettings, hp, hm, zSafeParseOpt_some, hb]
        | none => simp [getPluginSettings, hp, hm, zSafeParseOpt_some]

lemma settingsFields_ctobs (s : Settings) (b : Bool) (h : s.closeTabsOnBulkSave = some b) :
    fieldsLookup (settingsFields s) "closeTabsOnBulkSave" = some (.bool b) := by
  cases ha : s.apiKeyId <;> simp [settingsFields, fieldsLookup, ha, h]

/-- C5: for every stored raw value (absent, unparsable, or valid),
`getPluginSettings()` — a total function, so it terminates and throws
nothing — returns a record whose defaultable fields are all populated; in
particular `closeTabsOnBulkSave` is a defined boolean (the other defaultable
fields are total by type). A missing stored value yields exactly
`DEFAULT_SETTINGS`, and so does an unparsable one that the defaulting merge
cannot repair (no self-healing write happened). -/
theorem read_total_fully_defaulted (store : Option JsonVal) :
    ((getPluginSettings store).result).closeTabsOnBulkSave.isSome
    ∧ (store = none → (getPluginSettings store).result = DEFAULT_SETTINGS)
    ∧ (zSafeParseOpt store = none → (getPluginSettings store).didWrite = false →
        (getPluginSettings store).result = DEFAULT_SETTINGS) := by
  refine ⟨read_ctobs_isSome store, fun h => by subst h; rfl, fun hp hw => ?_⟩
  cases store with
  | none => rfl
  | some v =>
    rw [zSafeParseOpt_some] at hp
    cases v <;> simp only [getPluginSettings, zSafeParseOpt_some, hp] <;> try rfl
    case obj fs =>
      cases hm : zSettingsSchema_safeParse (.obj (mergeFields defaultSettingsFields fs)) with
      | some md =>
        simp [getPluginSettings, zSafeParseOpt_some, hp, hm] at hw
      | none => simp [getPluginSettings, zSafeParseOpt_some, hp, hm]
    case arr xs =>
      cases hm : zSettingsSchema_safeParse
          (.obj (mergeFields defaultSettingsFields (arrayToFields xs))) with
      | some md =>
        simp [getPluginSettings, zSafeParseOpt_some, hp, hm] at hw
      | none => simp [getPluginSettings, zSafeParseOpt_some, hp, hm]

/-- C5 witness: a missing stored value. -/
theorem read_total_fully_defaulted_witness :
    ((getPluginSettings none).result).closeTabsOnBulkSave.isSome
    ∧ (getPluginSettings none).result = DEFAULT_SETTINGS := by
  have h := read_total_fully_defaulted none
  exact ⟨h.1, h.2.1 rfl⟩

/-- C6: a persisted record that parses but lacks `closeTabsOnBulkSave` is
backfilled: `getPluginSettings` returns the parsed record with
`closeTabsOnBulkSave := false`, persists it, and the raw value now stored
has the `closeTabsOnBulkSave` key present (with value `false`). -/
theorem read_backfills_ctobs (v : JsonVal) (s : Settings)
    (hp : zSettingsSchema_safeParse v = some s)
    (hc : s.closeTabsOnBulkSave = none) :
    (getPluginSettings (some v)).result = { s with closeTabsOnBulkSave := some false }
    ∧ (getPluginSettings (some v)).result.closeTabsOnBulkSave = some false
    ∧ (getPluginSettings (some v)).didWrite = true
    ∧ (getPluginSettings (some v)).newStore
        = some (settingsToJson { s with closeTabsOnBulkSave := some false })
    ∧ (∃ fs2, (getPluginSettings (some v)).newStore = some (.obj fs2)
        ∧ fieldsLookup fs2 "closeTabsOnBulkSave" = some (.bool false)) := by
  have hread : getPluginSettings (some v)
      = ⟨{ s with closeTabsOnBulkSave := some false },
         some (settingsToJson { s with closeTabsOnBulkSave := some false }), true⟩ := by
    simp [getPluginSettings, zSafeParseOpt_some, hp, hc]
  refine ⟨by rw [hread], by rw [hread], by rw [hread], by rw [hread], ?_⟩
  refine ⟨settingsFields { s with closeTabsOnBulkSave := some false }, by rw [hread]; rfl, ?_⟩
  exact settingsFields_ctobs _ false rfl

/-- C6 witness: a stored record `{apiKey: ""}` (valid, missing the field). -/
theorem read_backfills_ctobs_witness :
    (getPluginSettings (some (.obj [("apiKey", .str "")]))).result.closeTabsOnBulkSave
      = some false
    ∧ (getPluginSettings (some (.obj [("apiKey", .str "")]))).didWrite = true := by
  have h := read_backfills_ctobs (.obj [("apiKey", .str "")])
      { apiKey := "", apiKeyId := none, address := "https://cloud.karakeep.app",
        autoSave := false, closeTabsOnBulkSave := none, theme := .system,
        showCountBadge := false, useBadgeCache := true,
        badgeCacheExpireMs := DEFAULT_BADGE_CACHE_EXPIRE_MS, customHeaders := [] }
      rfl rfl
  exact ⟨h.2.1, h.2.2.1⟩

/-- C2: `setSettings(updater)` persists exactly the updater applied to the
hook's current snapshot — the raw value written is its serialisation and
parses back to precisely `updater snapshot` — and that snapshot is the most
recently loaded or (validly) notified value, which the hook events track. -/
theorem setSettings_persists_updater (st : HookState) (f : Settings → Settings)
    (h : 0 ≤ (f st.settings).badgeCacheExpireMs) :
    setSettings st f = settingsToJson (f st.settings)
    ∧ zSettingsSchema_safeParse (setSettings st f) = some (f st.settings)
    ∧ (∀ loaded, (hookStep st (.initLoad loaded)).settings = loaded)
    ∧ (∀ c parsed, zSafeParseOpt c.newValue = some parsed →
        (hookStep st (.storageChange (some c))).settings = parsed) := by
  refine ⟨rfl, safeParse_settingsToJson _ h, fun loaded => rfl, fun c parsed hc => ?_⟩
  simp [hookStep, hookOnChange, hc]

/-- C2 witness: toggling `autoSave` on the default snapshot. -/
theorem setSettings_persists_updater_witness :
    setSettings ⟨DEFAULT_SETTINGS, true⟩ (fun s => { s with autoSave := true })
      = settingsToJson { DEFAULT_SETTINGS with autoSave := true }
    ∧ zSettingsSchema_safeParse (setSettings ⟨DEFAULT_SETTINGS, true⟩
        (fun s => { s with autoSave := true }))
      = some { DEFAULT_SETTINGS with autoSave := true } := by
  have h := setSettings_persists_updater ⟨DEFAULT_SETTINGS, true⟩
      (fun s => { s with autoSave := true }) (by decide)
  exact ⟨h.1, h.2.1⟩

/-- C1 counterexample: the stored value `{apiKey: ""}` is schema-valid but
lacks `closeTabsOnBulkSave`, and a change notification carrying it makes
`subscribeToSettingsChanges` invoke its subscriber with a record whose
`closeTabsOnBulkSave` is undefined — a reader observing a record whose
defaultable field `closeTabsOnBulkSave` is not a defined boolean. -/
theorem subscriber_observes_missing_ctobs :
    ((subscribeListener (some ⟨none, some (.obj [("apiKey", .str "")])⟩)).map
      Settings.closeTabsOnBulkSave) = some none := by
  rfl

/-- C1 (amended): readers through `getPluginSettings` always observe a
record with `closeTabsOnBulkSave` defined; readers on the change-notification
paths observe exactly the schema-parse of the new raw value (which may lack
`closeTabsOnBulkSave`): the subscriber path degrades to `DEFAULT_SETTINGS`
on an invalid value, and the hook's listener keeps its previous snapshot. -/
theorem readers_fully_defaulted_amended :
    (∀ store, ((getPluginSettings store).result).closeTabsOnBulkSave.isSome)
    ∧ (∀ c s, subscribeListener (some c) = some s →
        zSafeParseOpt c.newValue = some s ∨ s = DEFAULT_SETTINGS)
    ∧ (∀ c prev, hookOnChange (some c) prev = prev
        ∨ zSafeParseOpt c.newValue = some (hookOnChange (some c) prev)) := by
  refine ⟨read_ctobs_isSome, fun c s h => ?_, fun c prev => ?_⟩
  · cases hc : zSafeParseOpt c.newValue with
    | some parsed =>
      simp only [subscribeListener, hc, Option.some.injEq] at h
      subst h
      exact Or.inl rfl
    | none =>
      simp only [subscribeListener, hc, Option.some.injEq] at h
      exact Or.inr h.symm
  · cases hc : zSafeParseOpt c.newValue with
    | some parsed => right; simp only [hookOnChange, hc]
    | none => left; simp only [hookOnChange, hc]

/-- C1 amended witness: a missing store for the read path, an invalid new
value for the notification paths. -/
theorem readers_fully_defaulted_amended_witness :
    ((getPluginSettings none).result).closeTabsOnBulkSave.isSome
    ∧ (zSafeParseOpt (some (JsonVal.num 3)) = some DEFAULT_SETTINGS
        ∨ DEFAULT_SETTINGS = DEFAULT_SETTINGS)
    ∧ (hookOnChange (some ⟨none, some (JsonVal.num 3)⟩) DEFAULT_SETTINGS = DEFAULT_SETTINGS
        ∨ zSafeParseOpt (some (JsonVal.num 3))
            = some (hookOnChange (some ⟨none, some (JsonVal.num 3)⟩) DEFAULT_SETTINGS)) := by
  obtain ⟨h1, h2, h3⟩ := readers_fully_defaulted_amended
  exact ⟨h1 none, h2 ⟨none, some (JsonVal.num 3)⟩ DEFAULT_SETTINGS rfl,
    h3 ⟨none, some (JsonVal.num 3)⟩ DEFAULT_SETTINGS⟩

/-- C10: on a change notification whose new value fails schema validation,
the subscription listener still invokes the subscriber, passing the full
default record (whose `apiKey` is the empty string), while the hook's
internal listener ignores the change and keeps its previous snapshot. -/
theorem invalid_change_subscriber_vs_hook (c : StorageChange)
    (h : zSafeParseOpt c.newValue = none) :
    subscribeListener (some c) = some DEFAULT_SETTINGS
    ∧ DEFAULT_SETTINGS.apiKey = ""
    ∧ (∀ prev, hookOnChange (some c) prev = prev) := by
  refine ⟨?_, rfl, fun prev => ?_⟩ <;> simp [subscribeListener, hookOnChange, h]

/-- C10 witness: the new value `3` fails validation. -/
theorem invalid_change_subscriber_vs_hook_witness :
    subscribeListener (some ⟨none, some (JsonVal.num 3)⟩) = some DEFAULT_SETTINGS
    ∧ DEFAULT_SETTINGS.apiKey = ""
    ∧ hookOnChange (some ⟨none, some (JsonVal.num 3)⟩) DEFAULT_SETTINGS = DEFAULT_SETTINGS := by
  have h := invalid_change_subscriber_vs_hook ⟨none, some (JsonVal.num 3)⟩ rfl
  exact ⟨h.1, h.2.1, h.2.2 DEFAULT_SETTINGS⟩

/-! ### Lemmas about the bulk-save orchestrator -/

lemma bulkStep_notThrown_progress (N i : ℕ) (t : Tab) (o : TabOutcome) (st : LoopState)
    (h : o.isThrown = false) :
    (bulkStep N i t o st).cur.progress = (((i : ℚ) + 1) / (N : ℚ)) * 100 := by
  cases o with
  | success => rfl
  | failure msg => rfl
  | thrown msg => exact Bool.noConfusion h

lemma bulkStep_snaps (N i : ℕ) (t : Tab) (o : TabOutcome) (st : LoopState) :
    (bulkStep N i t o st).snaps = st.snaps ++ [(bulkStep N i t o st).cur] := by
  cases o <;> rfl

/-- Loop invariant for the progress values: while no iteration goes through
the `catch` branch, after `i` processed tabs the status carries progress
`i * 100 / N`, the last emitted snapshot is the current status, and the
emitted progress values form a non-decreasing chain. -/
lemma bulkLoop_progress_inv (N : ℕ) (hN : 0 < N) :
    ∀ (rest : List (Tab × TabOutcome)) (i : ℕ) (st : LoopState),
      (∀ p ∈ rest, p.2.isThrown = false) →
      i + rest.length ≤ N →
      st.cur.progress = (i : ℚ) * 100 / N →
      st.snaps.getLast? = some st.cur →
      List.Chain' (· ≤ ·) (st.snaps.map BulkSaveStatus.progress) →
      (bulkLoop N i rest st).cur.progress = ((i + rest.length : ℕ) : ℚ) * 100 / N
      ∧ (bulkLoop N i rest st).snaps.getLast? = some (bulkLoop N i rest st).cur
      ∧ List.Chain' (· ≤ ·) ((bulkLoop N i rest st).snaps.map BulkSaveStatus.progress) := by
  intro rest
  induction rest with
  | nil =>
    intro i st _ _ hcur hlast hchain
    simpa [bulkLoop] using ⟨hcur, hlast, hchain⟩
  | cons p rest ih =>
    obtain ⟨t, o⟩ := p
    intro i st hok hlen hcur hlast hchain
    have hone : o.isThrown = false := hok (t, o) (List.mem_cons_self _ _)
    have hcur' : (bulkStep N i t o st).cur.progress = ((i + 1 : ℕ) : ℚ) * 100 / N := by
      rw [bulkStep_notThrown_progress N i t o st hone]
      push_cast
      ring
    have hsnaps' := bulkStep_snaps N i t o st
    have hlast' : (bulkStep N i t o st).snaps.getLast? = some (bulkStep N i t o st).cur := by
      rw [hsnaps']
      exact List.getLast?_concat _
    have hmono : st.cur.progress ≤ (bulkStep N i t o st).cur.progress := by
      rw [hcur, hcur']
      have hNQ : (0 : ℚ) < (N : ℚ) := by exact_mod_cast hN
      gcongr
      exact_mod_cast Nat.le_succ i
    have hchain' : List.Chain' (· ≤ ·)
        ((bulkStep N i t o st).snaps.map BulkSaveStatus.progress) := by
      rw [hsnaps', List.map_append, List.chain'_append]
      refine ⟨hchain, List.chain'_singleton _, ?_⟩
      intro x hx y hy
      rw [List.getLast?_map, hlast] at hx
      simp only [List.map_cons, List.map_nil, List.head?_cons, Option.mem_def,
        Option.map_some', Option.some.injEq] at hx hy
      rw [hx, hy] at hmono
      exact hmono
    have := ih (i + 1) (bulkStep N i t o st)
      (fun q hq => hok q (List.mem_cons_of_mem _ hq))
      (by simpa [Nat.add_assoc, Nat.add_comm 1 rest.length] using hlen)
      hcur' hlast' hchain'
    simpa [bulkLoop, Nat.add_assoc, Nat.add_comm 1 rest.length] using this

/-- Loop invariant for conservation: the status mirrors the loop's local
`completed` and `errors`, keeps `total = N`, and every processed tab lands in
exactly one of `completed` or `errors` (the `catch` branch also appends). -/
lemma bulkLoop_conservation_inv (N : ℕ) :
    ∀ (rest : List (Tab × TabOutcome)) (i : ℕ) (st : LoopState),
      st.cur.completed = st.completed →
      st.cur.errors = st.errors →
      st.cur.total = N →
      st.completed + st.errors.length = i →
      (bulkLoop N i rest st).cur.completed = (bulkLoop N i rest st).completed
      ∧ (bulkLoop N i rest st).cur.errors = (bulkLoop N i rest st).errors
      ∧ (bulkLoop N i rest st).cur.total = N
      ∧ (bulkLoop N i rest st).completed + (bulkLoop N i rest st).errors.length
          = i + rest.length := by
  intro rest
  induction rest with
  | nil =>
    intro i st h1 h2 h3 h4
    simpa [bulkLoop] using ⟨h1, h2, h3, h4⟩
  | cons p rest ih =>
    obtain ⟨t, o⟩ := p
    intro i st h1 h2 h3 h4
    have hstep :
        (bulkStep N i t o st).cur.completed = (bulkStep N i t o st).completed
        ∧ (bulkStep N i t o st).cur.errors = (bulkStep N i t o st).errors
        ∧ (bulkStep N i t o st).cur.total = N
        ∧ (bulkStep N i t o st).completed + (bulkStep N i t o st).errors.length
            = i + 1 := by
      cases o <;>
        simp [bulkStep, h1, h2, h3] <;>
        omega
    have := ih (i + 1) (bulkStep N i t o st) hstep.1 hstep.2.1 hstep.2.2.1 hstep.2.2.2
    simpa [bulkLoop, Nat.add_assoc, Nat.add_comm 1 rest.length] using this

/-- At the end of the loop, `savedTabIds` holds exactly the truthy ids of
the tabs whose create succeeded, in order. -/
lemma bulkLoop_savedIds (N : ℕ) :
    ∀ (rest : List (Tab × TabOutcome)) (i : ℕ) (st : LoopState),
      (bulkLoop N i rest st).savedTabIds = st.savedTabIds ++ succIds rest := by
  intro rest
  induction rest with
  | nil => intro i st; simp [bulkLoop, succIds]
  | cons p rest ih =>
    obtain ⟨t, o⟩ := p
    intro i st
    cases o with
    | success =>
      cases hti : truthyId t <;>
        simp [bulkLoop, bulkStep, succIds, List.filterMap_cons, hti, ih]
    | failure msg =>
      simp [bulkLoop, bulkStep, succIds, List.filterMap_cons, ih]
    | thrown msg =>
      simp [bulkLoop, bulkStep, succIds, List.filterMap_cons, ih]

lemma mem_succIds (items : List (Tab × TabOutcome)) (n : Int) (h : n ∈ succIds items) :
    ∃ p ∈ items, p.2 = TabOutcome.success ∧ p.1.id = some n ∧ n ≠ 0 := by
  unfold succIds at h
  rw [List.mem_filterMap] at h
  obtain ⟨p, hp, hf⟩ := h
  refine ⟨p, hp, ?_⟩
  cases ho : p.2
  case success =>
    rw [ho] at hf
    have hf2 : truthyId p.1 = some n := hf
    unfold truthyId at hf2
    cases hid : p.1.id
    · rw [hid] at hf2
      exact Option.noConfusion hf2
    · rename_i m
      rw [hid] at hf2
      have hf3 : (if m = 0 then none else some m : Option Int) = some n := hf2
      by_cases hm : m = 0
      · rw [if_pos hm] at hf3
        exact Option.noConfusion hf3
      · rw [if_neg hm] at hf3
        injection hf3 with hf3
        subst hf3
        exact ⟨rfl, rfl, hm⟩
  case failure msg =>
    rw [ho] at hf
    exact Option.noConfusion (show (none : Option Int) = some n from hf)
  case thrown msg =>
    rw [ho] at hf
    exact Option.noConfusion (show (none : Option Int) = some n from hf)

/-- In a list whose `filterMap f` image is duplicate-free, two members mapped
by `f` to the same value are equal. -/
lemma filterMap_nodup_unique {α β : Type} (f : α → Option β) :
    ∀ (l : List α), (l.filterMap f).Nodup →
      ∀ p, p ∈ l → ∀ q, q ∈ l → ∀ n, f p = some n → f q = some n → p = q := by
  intro l
  induction l with
  | nil =>
    intro _ p hp
    exact absurd hp (List.not_mem_nil p)
  | cons a l ih =>
    intro hnd p hp q hq n hfp hfq
    have hnd' : (l.filterMap f).Nodup := by
      cases hfa : f a with
      | none => rw [List.filterMap_cons, hfa] at hnd; exact hnd
      | some b =>
        rw [List.filterMap_cons, hfa] at hnd
        exact (List.nodup_cons.mp hnd).2
    rcases List.mem_cons.mp hp with rfl | hp' <;> rcases List.mem_cons.mp hq with rfl | hq'
    · rfl
    · exfalso
      rw [List.filterMap_cons, hfp] at hnd
      exact (List.nodup_cons.mp hnd).1 (List.mem_filterMap.mpr ⟨q, hq', hfq⟩)
    · exfalso
      rw [List.filterMap_cons, hfq] at hnd
      exact (List.nodup_cons.mp hnd).1 (List.mem_filterMap.mpr ⟨p, hp', hfp⟩)
    · exact ih hnd' p hp' q hq' n hfp hfq

/-- C9: `handleBulkSave` over an empty tab list performs no state transition
and emits no `BulkSaveStatus` snapshot: it only reports the "No valid tabs
found to save" condition and issues no close request. -/
theorem bulk_empty_rejects (closeTabs : Bool) (saveType : SaveType) :
    handleBulkSave [] closeTabs saveType
      = ⟨[], some "No valid tabs found to save", none⟩ := rfl

/-- C4: over a non-empty tab list, with each tab resolving through
`onSuccess` or `onError` (no synchronous exception), the emitted `progress`
values are non-decreasing and the final snapshot's progress is `100`. -/
theorem bulk_progress_monotone_final (items : List (Tab × TabOutcome))
    (closeTabs : Bool) (saveType : SaveType)
    (hne : items ≠ [])
    (hok : ∀ p ∈ items, p.2.isThrown = false) :
    List.Chain' (· ≤ ·)
      ((handleBulkSave items closeTabs saveType).snapshots.map BulkSaveStatus.progress)
    ∧ ((handleBulkSave items closeTabs saveType).snapshots.map
        BulkSaveStatus.progress).getLast? = some 100 := by
  have hN : 0 < items.length := List.length_pos.mpr hne
  have hlen : ¬ items.length = 0 := hN.ne'
  have hNQ : ((items.length : ℚ)) ≠ 0 := Nat.cast_ne_zero.mpr hN.ne'
  obtain ⟨h1, h2, h3⟩ := bulkLoop_progress_inv items.length hN items 0
      ⟨0, [], [], ⟨true, 0, items.length, 0, [], some saveType⟩,
        [⟨true, 0, items.length, 0, [], some saveType⟩]⟩
      hok (by omega) (by norm_num) rfl (List.chain'_singleton _)
  have hfin : (bulkLoop items.length 0 items
      ⟨0, [], [], ⟨true, 0, items.length, 0, [], some saveType⟩,
        [⟨true, 0, items.length, 0, [], some saveType⟩]⟩).cur.progress = 100 := by
    rw [h1]
    rw [Nat.zero_add]
    field_simp
  simp only [handleBulkSave, hlen, if_false]
  constructor
  · rw [List.map_append, List.chain'_append]
    refine ⟨h3, List.chain'_singleton _, ?_⟩
    intro x hx y hy
    rw [List.getLast?_map, h2] at hx
    simp only [List.map_cons, List.map_nil, List.head?_cons, Option.mem_def,
      Option.map_some', Option.some.injEq] at hx hy
    rw [← hx, ← hy]
  · simp only [List.map_append, List.map_cons, List.map_nil]
    rw [List.getLast?_concat]
    simp only [Option.some.injEq]
    exact hfin

/-- C4 witness: one tab saved successfully. -/
theorem bulk_progress_monotone_final_witness :
    List.Chain' (· ≤ ·)
      ((handleBulkSave [(⟨"https://a", some "A", some 1⟩, TabOutcome.success)]
          false SaveType.all).snapshots.map BulkSaveStatus.progress)
    ∧ ((handleBulkSave [(⟨"https://a", some "A", some 1⟩, TabOutcome.success)]
          false SaveType.all).snapshots.map BulkSaveStatus.progress).getLast?
        = some 100 :=
  bulk_progress_monotone_final _ false SaveType.all (by decide) (by decide)

/-- C7: at the final snapshot of any non-empty run, over any mix of per-tab
outcomes, `completed + length errors = total` and `total` is the number of
tabs. -/
theorem bulk_conservation_final (items : List (Tab × TabOutcome))
    (closeTabs : Bool) (saveType : SaveType) (hne : items ≠ []) :
    ((handleBulkSave items closeTabs saveType).snapshots.getLast?).map
      (fun fin => (fin.completed + fin.errors.length, fin.total))
      = some (items.length, items.length) := by
  have hN : 0 < items.length := List.length_pos.mpr hne
  have hlen : ¬ items.length = 0 := hN.ne'
  obtain ⟨h1, h2, h3, h4⟩ := bulkLoop_conservation_inv items.length items 0
      ⟨0, [], [], ⟨true, 0, items.length, 0, [], some saveType⟩,
        [⟨true, 0, items.length, 0, [], some saveType⟩]⟩
      rfl rfl rfl rfl
  simp only [handleBulkSave, hlen, if_false]
  rw [List.getLast?_concat]
  simp only [Option.map_some', Option.some.injEq, Prod.mk.injEq]
  constructor
  · rw [h1, h2]
    simpa using h4
  · exact h3

/-- C7 witness: one success and one failure. -/
theorem bulk_conservation_final_witness :
    ((handleBulkSave [(⟨"https://a", some "A", some 1⟩, TabOutcome.success),
        (⟨"https://b", some "B", some 2⟩, TabOutcome.failure "boom")]
        false SaveType.all).snapshots.getLast?).map
      (fun fin => (fin.completed + fin.errors.length, fin.total)) = some (2, 2) :=
  bulk_conservation_final _ false SaveType.all (by decide)

/-- C8: with `closeAfter` enabled, the batched tab-closure request holds
exactly `savedTabIds` — the (truthy) identifiers of the tabs whose create
succeeded, in order; a tab whose create did not succeed never contributes its
identifier (tab ids assumed pairwise distinct, as the host guarantees); and
when no tab succeeded no close request is issued at all. -/
theorem bulk_close_request_scoped (items : List (Tab × TabOutcome)) (saveType : SaveType)
    (hnd : (items.filterMap (fun p => p.1.id)).Nodup) :
    (handleBulkSave items true saveType).closeRequest
        = (if succIds items = [] then none else some (succIds items))
    ∧ (∀ n ∈ succIds items, ∃ p ∈ items, p.2 = TabOutcome.success ∧ p.1.id = some n)
    ∧ (∀ p ∈ items, p.2 ≠ TabOutcome.success → ∀ n, p.1.id = some n →
        ∀ req, (handleBulkSave items true saveType).closeRequest = some req →
          n ∉ req) := by
  have hreq : (handleBulkSave items true saveType).closeRequest
      = (if succIds items = [] then none else some (succIds items)) := by
    by_cases hlen : items.length = 0
    · have hnil : items = [] := List.length_eq_zero.mp hlen
      subst hnil
      simp [handleBulkSave, succIds]
    · simp only [handleBulkSave, hlen, if_false]
      rw [bulkLoop_savedIds]
      by_cases hs : succIds items = [] <;> simp [hs]
  refine ⟨hreq, fun n hn => ?_, fun p hp hps n hn req hr hmem => ?_⟩
  · obtain ⟨q, hq, hqsucc, hqid, -⟩ := mem_succIds items n hn
    exact ⟨q, hq, hqsucc, hqid⟩
  · rw [hreq] at hr
    by_cases hs : succIds items = []
    · rw [if_pos hs] at hr
      exact Option.noConfusion hr
    · rw [if_neg hs] at hr
      injection hr with hr
      subst hr
      obtain ⟨q, hq, hqsucc, hqid, -⟩ := mem_succIds items n hmem
      have hpq := filterMap_nodup_unique (fun p => p.1.id) items hnd p hp q hq n hn hqid
      rw [hpq] at hps
      exact hps hqsucc

/-- C8 witness: tab A (id 1) succeeds, tab B (id 2) fails; the batched close
request is exactly `[1]`, and B's id 2 is not in it. -/
theorem bulk_close_request_scoped_witness :
    (handleBulkSave [(⟨"https://a", some "A", some 1⟩, TabOutcome.success),
        (⟨"https://b", some "B", some 2⟩, TabOutcome.failure "boom")] true
        SaveType.all).closeRequest = some [1]
    ∧ (2 : Int) ∉ ([1] : List Int) := by
  have h := bulk_close_request_scoped
      [(⟨"https://a", some "A", some 1⟩, TabOutcome.success),
        (⟨"https://b", some "B", some 2⟩, TabOutcome.failure "boom")]
      SaveType.all (by decide)
  have hc : (handleBulkSave [(⟨"https://a", some "A", some 1⟩, TabOutcome.success),
      (⟨"https://b", some "B", some 2⟩, TabOutcome.failure "boom")] true
      SaveType.all).closeRequest = some [1] := by
    rw [h.1]
    decide
  exact ⟨hc, h.2.2 (⟨"https://b", some "B", some 2⟩, TabOutcome.failure "boom")
    (by decide) (by decide) 2 rfl [1] hc⟩

end Karakeep
